import Mathlib

/-!
Verification of the `simple_elastic` index wrapper
(src/simple_elastic/index.py) against its design specification.

The remote search service is modelled abstractly: per-operation outcomes
are supplied as oracles, the cluster as an association list of index
names to metadata, and the paginated scroll endpoint as successive
take/drop chunks of the matching hit list. All functions of the wrapper
(`bulk`, `scroll`, `get`, `index_into`, the constructor and `reindex`)
are shallowly embedded as executable Lean functions; Python exceptions
become `Except PyError`.
-/

set_option maxHeartbeats 1000000

namespace SimpleElastic

/-- JSON-like scalar values stored in a document field. -/
inductive Val where
  | str : String → Val
  | num : Int → Val
  | bool : Bool → Val
  | null : Val
deriving DecidableEq, Repr

/-- A document: a Python dict from field names to values (keys unique). -/
abbrev Doc := List (String × Val)

/-- Python `document.pop(key)`: removes the entry stored under `key`. -/
def docPop (k : String) (d : Doc) : Doc := d.filter (fun p => p.1 != k)

/-- The Python exceptions that the wrapper can raise or catch. -/
inductive PyError where
  | notFoundError
  | keyError (k : String)
  | requestError (msg : String)
  | transportError (msg : String)
deriving DecidableEq, Repr

/-- One action dict built by `ElasticIndex.bulk` for the helpers bulk call:
`_op_type`, optional `_id`, optional `_source` payload (index), optional
`doc` payload (update) and the `doc_as_upsert` flag. -/
structure BulkObject where
  op_type : String
  id : Option Val := none
  source : Option Doc := none
  doc : Option Doc := none
  doc_as_upsert : Bool := false
deriving DecidableEq, Repr

/-- The guard `identifier_key` given and not the empty string. -/
def idKeyGiven : Option String → Bool
  | none => false
  | some k => k != ""

/-- The payload attachment steps of the loop body in `ElasticIndex.bulk`:
`_source` for op_type index, `doc` (and `doc_as_upsert` when upsert) for
op_type update, nothing for any other op_type. -/
def attachPayload (op_type : String) (upsert : Bool) (obj : BulkObject)
    (document : Doc) : BulkObject :=
  if op_type = "index" then { obj with source := some document }
  else if op_type = "update" then
    let obj := { obj with doc := some document }
    if upsert then { obj with doc_as_upsert := true } else obj
  else obj

/-- One iteration of the loop in `ElasticIndex.bulk`: builds the action
dict for `document` and returns it together with the document as the
caller sees it afterwards (the loop mutates the dict in place).
`document[identifier_key]` on a missing key raises `KeyError`. -/
def buildBulkObject (identifier_key : Option String) (op_type : String)
    (upsert keep_id_key : Bool) (document : Doc) :
    Except PyError (BulkObject × Doc) :=
  let obj : BulkObject := { op_type := op_type }
  if idKeyGiven identifier_key then
    let k := identifier_key.getD ""
    match document.lookup k with
    | none => .error (.keyError k)
    | some v =>
      let document := if keep_id_key then document else docPop k document
      let obj := if v = .str "" then obj else { obj with id := some v }
      .ok (attachPayload op_type upsert obj document, document)
  else
    .ok (attachPayload op_type upsert obj document, document)

/-- The full loop of `ElasticIndex.bulk`: builds one action per input
document (left to right, first `KeyError` propagates) and also returns
the post-call state of the caller documents. -/
def buildBulkObjects (identifier_key : Option String) (op_type : String)
    (upsert keep_id_key : Bool) : List Doc → Except PyError (List BulkObject × List Doc)
  | [] => .ok ([], [])
  | document :: rest => do
    let (obj, document) ← buildBulkObject identifier_key op_type upsert keep_id_key document
    let (objs, rest) ← buildBulkObjects identifier_key op_type upsert keep_id_key rest
    .ok (obj :: objs, document :: rest)

/-- The remote helpers bulk endpoint with `raise_on_error=False`: the
oracle `ok` says which submitted operations the service accepts. It
reports the count of accepted operations and one failure descriptor
(position and action) per rejected operation. -/
def helpersBulk (ok : Nat → Bool) (actions : List BulkObject) :
    Nat × List (Nat × BulkObject) :=
  (actions.enum.countP (fun p => ok p.1),
   actions.enum.filter (fun p => !(ok p.1)))

/-- `ElasticIndex.bulk`: builds the actions, submits them in one batch
with `raise_on_error=False`, and returns True iff
`errors[0] - len(bulk_objects) == 0` (Python int arithmetic). Also
returns the post-call state of the caller documents. -/
def bulk (ok : Nat → Bool) (data : List Doc) (identifier_key : Option String)
    (op_type : String) (upsert : Bool) (keep_id_key : Bool) :
    Except PyError (Bool × List Doc) := do
  let (bulk_objects, data) ← buildBulkObjects identifier_key op_type upsert keep_id_key data
  let errors := helpersBulk ok bulk_objects
  if ((errors.1 : Int) - (bulk_objects.length : Int)) ≠ 0 then
    .ok (false, data)
  else
    .ok (true, data)

/-- One hit as returned by the search service: a dict that may carry a
`_source` sub-document (plus metadata) or may be a bare dict. -/
inductive HitRepr where
  | withSource (meta : Doc) (src : Doc)
  | plain (d : Doc)
deriving DecidableEq, Repr

/-- The unpack step taking the `_source` member when the hit has one, the raw hit otherwise,
applied to one hit. -/
def unpackHit : HitRepr → Doc
  | .withSource _ s => s
  | .plain d => d

/-- The generator `ElasticIndex.scroll` with `unpack=False`, run to
exhaustion against a remote index whose matching hits are `hits`: the
initial search returns the first `size` hits, every later fetch presents
the latest continuation token (here: the remaining suffix) and returns
the next `size` hits, and the loop exits when a fetch comes back empty. -/
def scrollRaw (size : Nat) (hits : List HitRepr) : List (List HitRepr) :=
  if h : hits.take size = [] then []
  else hits.take size :: scrollRaw size (hits.drop size)
termination_by hits.length
decreasing_by
  rw [List.take_eq_nil_iff] at h
  push_neg at h
  have h1 : size ≠ 0 := h.1
  have h2 : hits ≠ [] := h.2
  have : 0 < hits.length := List.length_pos.mpr h2
  simp only [List.length_drop]
  omega

/-- The generator `ElasticIndex.scroll` with `unpack=True`: same loop,
each yielded batch unpacked hit by hit. -/
def scrollUnpacked (size : Nat) (hits : List HitRepr) : List (List Doc) :=
  if h : hits.take size = [] then []
  else (hits.take size).map unpackHit :: scrollUnpacked size (hits.drop size)
termination_by hits.length
decreasing_by
  rw [List.take_eq_nil_iff] at h
  push_neg at h
  have h1 : size ≠ 0 := h.1
  have h2 : hits ≠ [] := h.2
  have : 0 < hits.length := List.length_pos.mpr h2
  simp only [List.length_drop]
  omega

/-- Metadata held by the cluster for one index: the create body built by
`ElasticIndex.create` (optional `mappings`, mandatory `settings`). -/
structure IndexMeta where
  mappings : Option Doc
  settings : Doc
deriving DecidableEq, Repr

/-- The remote cluster state: which indices exist, with their metadata. -/
abbrev Cluster := List (String × IndexMeta)

/-- The `indices.exists(index)` client call. -/
def indicesExists (c : Cluster) (name : String) : Bool :=
  (c.lookup name).isSome

/-- The `indices.delete(index)` client call: raises `NotFoundError` when
no index of that name exists (no ignore parameter is passed). -/
def indicesDelete (c : Cluster) (name : String) : Except PyError Cluster :=
  if indicesExists c name then .ok (c.filter (fun p => p.1 != name))
  else .error .notFoundError

/-- `ElasticIndex._default_settings()`. -/
def default_settings : Doc :=
  [("number_of_shards", .num 5), ("number_of_replicas", .num 1),
   ("auto_expand_replicas", .bool true), ("refresh_interval", .str "1s")]

/-- The body built by `ElasticIndex.create`: `mappings` only when a
mapping was supplied, `settings` defaulting to `_default_settings()`. -/
def createBody (mapping settings : Option Doc) : IndexMeta :=
  { mappings := mapping, settings := settings.getD default_settings }

/-- The `indices.create(index, body)` client call. -/
def indicesCreate (c : Cluster) (name : String) (body : IndexMeta) : Cluster :=
  (name, body) :: c

/-- `ElasticIndex.create` as invoked from the constructor. -/
def createIndexOp (c : Cluster) (index : String) (mapping settings : Option Doc) :
    Cluster :=
  indicesCreate c index (createBody mapping settings)

/-- The handle object: the fields `ElasticIndex.__init__` stores. -/
structure ElasticIndex where
  index : String
  doc_type : String
  url : String
  mapping : Option Doc
  settings : Option Doc
  timeout : Nat
deriving DecidableEq, Repr

/-- `ElasticIndex.__init__` against cluster `c`: optionally delete (when
`replace`), then create when the index does not exist. Returns the
handle, the new cluster state, and whether a create call was issued. -/
def elasticIndexInit (c : Cluster) (index doc_type : String) (url : String)
    (mapping settings : Option Doc) (timeout : Nat) (replace : Bool) :
    Except PyError (ElasticIndex × Cluster × Bool) := do
  let c ← if replace then indicesDelete c index else .ok c
  let step :=
    if indicesExists c index then (c, false)
    else (createIndexOp c index mapping settings, true)
  .ok ({ index := index, doc_type := doc_type, url := url, mapping := mapping,
         settings := settings, timeout := timeout }, step.1, step.2)

/-- What the remote `get` call does for one identifier: the document is
found (a record that may or may not carry `_source`), the service reports
not-found (`NotFoundError`), or some other failure is raised. -/
inductive GetOutcome where
  | found (record : HitRepr)
  | notFound
  | failure (e : PyError)
deriving DecidableEq, Repr

/-- `ElasticIndex.get`: returns the bare source of a found record, `None`
on `NotFoundError`, and lets any other exception propagate. -/
def get (outcome : GetOutcome) : Except PyError (Option Doc) :=
  match outcome with
  | .found record => .ok (some (unpackHit record))
  | .notFound => .ok none
  | .failure e => .error e

/-- What the remote `index` call does for one write: accepted,
rejected with `RequestError` (mapping/validation conflict), or some
other exception raised. -/
inductive WriteOutcome where
  | ack
  | requestError (msg : String)
  | transportFailure (e : PyError)
deriving DecidableEq, Repr

/-- `ElasticIndex.index_into`: True on success, False on `RequestError`,
any other exception propagates. -/
def index_into (outcome : WriteOutcome) : Except PyError Bool :=
  match outcome with
  | .ack => .ok true
  | .requestError _ => .ok false
  | .transportFailure e => .error e

/-- The keyword-argument overrides accepted by `ElasticIndex.reindex`. -/
structure InitKwargs where
  url : Option String := none
  doc_type : Option String := none
  mapping : Option (Option Doc) := none
  settings : Option (Option Doc) := none
  timeout : Option Nat := none
  replace : Option Bool := none

/-- The reindex loop body: feed every scrolled batch into the target
handle through `bulk` with the given identifier key (op_type defaults
to index); any raised exception propagates. -/
def bulkBatches (ok : Nat → Bool) (identifier_key : Option String) :
    List (List Doc) → Except PyError Unit
  | [] => .ok ()
  | batch :: rest => do
    let _ ← bulk ok batch identifier_key "index" false false
    bulkBatches ok identifier_key rest

/-- `ElasticIndex.reindex`: defaults `url`, `doc_type` and `mapping` from
the source handle when not overridden, constructs the target handle,
drains the source through `scroll(size=500)` feeding each batch into the
target bulk call, and returns the new handle. -/
def reindex (c : Cluster) (ok : Nat → Bool) (self : ElasticIndex)
    (sourceHits : List HitRepr) (new_index_name : String)
    (identifier_key : Option String) (kwargs : InitKwargs) :
    Except PyError (ElasticIndex × Cluster) := do
  let kwargs := { kwargs with url := some (kwargs.url.getD self.url) }
  let kwargs := { kwargs with doc_type := some (kwargs.doc_type.getD self.doc_type) }
  let kwargs := { kwargs with mapping := some (kwargs.mapping.getD self.mapping) }
  let (new_index, c, _) ← elasticIndexInit c new_index_name
      (kwargs.doc_type.getD "") (kwargs.url.getD "http://localhost:9200")
      (kwargs.mapping.getD none) (kwargs.settings.getD none)
      (kwargs.timeout.getD 300) (kwargs.replace.getD false)
  let _ ← bulkBatches ok identifier_key (scrollUnpacked 500 sourceHits)
  .ok (new_index, c)

/-! ## Helper lemmas -/

theorem countP_add_countP_not {α : Type} (p : α → Bool) (l : List α) :
    l.countP p + l.countP (fun a => !(p a)) = l.length := by
  induction l with
  | nil => rfl
  | cons x l ih => by_cases h : p x <;> simp [List.countP_cons, h, ← ih] <;> omega

theorem helpersBulk_partition (ok : Nat → Bool) (actions : List BulkObject) :
    (helpersBulk ok actions).1 + (helpersBulk ok actions).2.length = actions.length := by
  have h := countP_add_countP_not (fun p : Nat × BulkObject => ok p.1) actions.enum
  simp only [helpersBulk, ← List.countP_eq_length_filter]
  simpa using h

theorem buildBulkObjects_length (identifier_key : Option String) (op_type : String)
    (upsert keep_id_key : Bool) :
    ∀ (data : List Doc) (objs : List BulkObject) (data2 : List Doc),
      buildBulkObjects identifier_key op_type upsert keep_id_key data = .ok (objs, data2) →
      objs.length = data.length ∧ data2.length = data.length := by
  intro data
  induction data with
  | nil =>
    intro objs data2 h
    simp only [buildBulkObjects] at h
    cases h
    exact ⟨rfl, rfl⟩
  | cons d rest ih =>
    intro objs data2 h
    simp only [buildBulkObjects] at h
    cases hobj : buildBulkObject identifier_key op_type upsert keep_id_key d with
    | error e => simp [hobj, Bind.bind, Except.bind] at h
    | ok od =>
      obtain ⟨o, d2⟩ := od
      cases hrest : buildBulkObjects identifier_key op_type upsert keep_id_key rest with
      | error e => simp [hobj, hrest, Bind.bind, Except.bind] at h
      | ok pr =>
        obtain ⟨objs0, rest0⟩ := pr
        simp only [hobj, hrest, Bind.bind, Except.bind] at h
        cases h
        obtain ⟨ihl, ihr⟩ := ih objs0 rest0 hrest
        simp [ihl, ihr]

/-! ## Claim theorems -/

/-- Claim C1: for every bulk call whose operation construction succeeds over
a batch of K submitted documents, the remote success count plus the number
of per-item failure descriptors equals K, and the call returns (without
raising any exception for per-item failures) True exactly when the success
count equals K. -/
theorem bulk_partition_and_signal (ok : Nat → Bool) (data : List Doc)
    (identifier_key : Option String) (op_type : String) (upsert keep_id_key : Bool)
    (objs : List BulkObject) (data2 : List Doc)
    (hbuild : buildBulkObjects identifier_key op_type upsert keep_id_key data =
      .ok (objs, data2)) :
    (helpersBulk ok objs).1 + (helpersBulk ok objs).2.length = data.length ∧
    bulk ok data identifier_key op_type upsert keep_id_key =
      .ok (decide ((helpersBulk ok objs).1 = data.length), data2) := by
  obtain ⟨hlen, _⟩ := buildBulkObjects_length _ _ _ _ _ _ _ hbuild
  refine ⟨by rw [← hlen]; exact helpersBulk_partition ok objs, ?_⟩
  simp only [bulk, hbuild, Bind.bind, Except.bind]
  by_cases hc : (helpersBulk ok objs).1 = data.length
  · have hz : ((data.length : Int)) - (objs.length : Int) = 0 := by
      rw [hlen]; omega
    simp [hz, hc]
  · have hz : ¬ (((helpersBulk ok objs).1 : Int) - (objs.length : Int) = 0) := by
      rw [hlen]
      intro hh
      exact hc (by omega)
    simp [hz, hc]

/-- Witness for C1 at a concrete two-document batch in which the remote
accepts the first operation and rejects the second. -/
theorem bulk_partition_and_signal_witness :
    (helpersBulk (fun i => i == 0)
        [{ op_type := "index", id := some (.str "1"), source := some [] },
         { op_type := "index", id := some (.str "2"), source := some [] }]).1 +
      (helpersBulk (fun i => i == 0)
        [{ op_type := "index", id := some (.str "1"), source := some [] },
         { op_type := "index", id := some (.str "2"), source := some [] }]).2.length =
      2 ∧
    bulk (fun i => i == 0) [[("a", .str "1")], [("a", .str "2")]] (some "a")
        "index" false false =
      .ok (decide ((helpersBulk (fun i => i == 0)
        [{ op_type := "index", id := some (.str "1"), source := some [] },
         { op_type := "index", id := some (.str "2"), source := some [] }]).1 = 2),
        [[], []]) :=
  bulk_partition_and_signal (fun i => i == 0)
    [[("a", .str "1")], [("a", .str "2")]] (some "a") "index" false false
    [{ op_type := "index", id := some (.str "1"), source := some [] },
     { op_type := "index", id := some (.str "2"), source := some [] }]
    [[], []] rfl

theorem attachPayload_id (op_type : String) (upsert : Bool) (obj : BulkObject)
    (d : Doc) : (attachPayload op_type upsert obj d).id = obj.id := by
  unfold attachPayload
  split_ifs <;> rfl

/-- Claim C2: one operation is built per document; a non-empty identifier
field name makes the value at that field the operation identifier (field
removed from the payload unless keepIdField; empty-string identifier
dropped so the service auto-assigns); the payload is the resulting
document for index, the resulting document as partial update (plus the
upsert flag when requested) for update, and absent for delete; an absent
or empty identifier field name leaves the document untouched. -/
theorem bulk_operation_construction (document : Doc) (op_type : String)
    (upsert keep_id_key : Bool) :
    (∀ k v, k ≠ "" → document.lookup k = some v →
      ∃ obj postDoc,
        buildBulkObject (some k) op_type upsert keep_id_key document = .ok (obj, postDoc) ∧
        postDoc = (if keep_id_key then document else docPop k document) ∧
        obj.op_type = op_type ∧
        obj.id = (if v = .str "" then none else some v) ∧
        obj.source = (if op_type = "index" then some postDoc else none) ∧
        obj.doc = (if op_type = "update" then some postDoc else none) ∧
        obj.doc_as_upsert = (decide (op_type = "update") && upsert)) ∧
    (∀ identifier_key, idKeyGiven identifier_key = false →
      buildBulkObject identifier_key op_type upsert keep_id_key document =
        .ok ({ op_type := op_type,
               id := none,
               source := if op_type = "index" then some document else none,
               doc := if op_type = "update" then some document else none,
               doc_as_upsert := decide (op_type = "update") && upsert }, document)) := by
  constructor
  · intro k v hk hv
    have hkb : (k != "") = true := by simpa using hk
    refine ⟨attachPayload op_type upsert
        (if v = .str "" then { op_type := op_type }
         else { op_type := op_type, id := some v })
        (if keep_id_key then document else docPop k document),
      (if keep_id_key then document else docPop k document), ?_, rfl, ?_, ?_, ?_, ?_, ?_⟩
    · simp only [buildBulkObject, idKeyGiven, hkb, hv, Option.getD_some, if_true]
    all_goals
      unfold attachPayload
      split_ifs <;> simp_all
  · intro identifier_key hfalse
    simp only [buildBulkObject, hfalse, Bool.false_eq_true, if_false]
    unfold attachPayload
    split_ifs <;> simp_all

/-- Witness for C2 at a concrete update-with-upsert call over a document
holding its identifier in field id. -/
theorem bulk_operation_construction_witness :
    ∃ obj postDoc,
      buildBulkObject (some "id") "update" true false
          [("id", Val.str "7"), ("x", Val.num 3)] = .ok (obj, postDoc) ∧
      postDoc = (if false then [("id", Val.str "7"), ("x", Val.num 3)]
                 else docPop "id" [("id", Val.str "7"), ("x", Val.num 3)]) ∧
      obj.op_type = "update" ∧
      obj.id = (if Val.str "7" = Val.str "" then none else some (Val.str "7")) ∧
      obj.source = (if "update" = "index" then some postDoc else none) ∧
      obj.doc = (if "update" = "update" then some postDoc else none) ∧
      obj.doc_as_upsert = (decide ("update" = "update") && true) :=
  (bulk_operation_construction [("id", Val.str "7"), ("x", Val.num 3)]
    "update" true false).1 "id" (Val.str "7") (by decide) rfl

theorem buildBulkObjects_pop (k : String) (hk : k ≠ "") (op_type : String)
    (upsert : Bool) :
    ∀ data : List Doc, (∀ d ∈ data, (d.lookup k).isSome = true) →
      ∃ objs,
        buildBulkObjects (some k) op_type upsert false data =
          .ok (objs, data.map (docPop k)) ∧
        objs.length = data.length ∧
        ∀ (i : Nat) (hi : i < data.length) (hio : i < objs.length),
          (data.get ⟨i, hi⟩).lookup k = some (.str "") →
          (objs.get ⟨i, hio⟩).id = none := by
  intro data
  induction data with
  | nil =>
    intro _
    exact ⟨[], rfl, rfl, by intro i hi; simp at hi⟩
  | cons d rest ih =>
    intro hall
    obtain ⟨v, hv⟩ := Option.isSome_iff_exists.mp (hall d (by simp))
    obtain ⟨objs, hbuild, hlen, hids⟩ := ih (fun d2 hd2 => hall d2 (by simp [hd2]))
    have hkb : (k != "") = true := by simpa using hk
    refine ⟨attachPayload op_type upsert
        (if v = .str "" then { op_type := op_type }
         else { op_type := op_type, id := some v }) (docPop k d) :: objs, ?_, by simp [hlen], ?_⟩
    · simp [buildBulkObjects, buildBulkObject, idKeyGiven, hkb, hv, hbuild,
        Bind.bind, Except.bind]
    · intro i hi hio hemp
      cases i with
      | zero =>
        simp only [List.get] at hemp
        rw [hv] at hemp
        cases hemp
        simp [attachPayload_id]
      | succ n =>
        exact hids n (by simpa using hi) (by simpa using hio) (by simpa using hemp)

/-- Claim C9: a bulk call with a non-empty identifier field name and
keep_id_key false removes that field from every caller document (the
post-call document list is the input list with the field popped), and
this happens even when the extracted value is the empty string, in which
case the corresponding operation carries no identifier. -/
theorem bulk_removes_id_field_in_place (ok : Nat → Bool) (k : String) (hk : k ≠ "")
    (op_type : String) (upsert : Bool) (data : List Doc)
    (hall : ∀ d ∈ data, (d.lookup k).isSome = true) :
    ∃ b objs,
      buildBulkObjects (some k) op_type upsert false data =
        .ok (objs, data.map (docPop k)) ∧
      bulk ok data (some k) op_type upsert false = .ok (b, data.map (docPop k)) ∧
      objs.length = data.length ∧
      ∀ (i : Nat) (hi : i < data.length) (hio : i < objs.length),
        (data.get ⟨i, hi⟩).lookup k = some (.str "") →
        (objs.get ⟨i, hio⟩).id = none := by
  obtain ⟨objs, hbuild, hlen, hids⟩ := buildBulkObjects_pop k hk op_type upsert data hall
  by_cases hc : ((helpersBulk ok objs).1 : Int) - (objs.length : Int) = 0
  · exact ⟨true, objs, hbuild,
      by simp [bulk, hbuild, Bind.bind, Except.bind, hc], hlen, hids⟩
  · exact ⟨false, objs, hbuild,
      by simp [bulk, hbuild, Bind.bind, Except.bind, hc], hlen, hids⟩

/-- Witness for C9 at one caller document whose identifier field holds the
empty string: the field is still removed and the operation has no id. -/
theorem bulk_removes_id_field_in_place_witness :
    ∃ b objs,
      buildBulkObjects (some "id") "index" false false
          [[("id", Val.str ""), ("x", Val.num 1)]] =
        .ok (objs, [[("id", Val.str ""), ("x", Val.num 1)]].map (docPop "id")) ∧
      bulk (fun _ => true) [[("id", Val.str ""), ("x", Val.num 1)]]
          (some "id") "index" false false =
        .ok (b, [[("id", Val.str ""), ("x", Val.num 1)]].map (docPop "id")) ∧
      objs.length = 1 ∧
      ∀ (i : Nat) (hi : i < 1) (hio : i < objs.length),
        (([[("id", Val.str ""), ("x", Val.num 1)]] : List Doc).get ⟨i, hi⟩).lookup "id" =
          some (.str "") →
        (objs.get ⟨i, hio⟩).id = none :=
  bulk_removes_id_field_in_place (fun _ => true) "id" (by decide) "index" false
    [[("id", Val.str ""), ("x", Val.num 1)]] (by decide)

theorem buildBulkObjects_keyError (k : String) (hk : k ≠ "") (op_type : String)
    (upsert keep_id_key : Bool) :
    ∀ data : List Doc, (∃ d ∈ data, d.lookup k = none) →
      buildBulkObjects (some k) op_type upsert keep_id_key data =
        .error (.keyError k) := by
  intro data
  induction data with
  | nil => rintro ⟨d, hd, _⟩; cases hd
  | cons d rest ih =>
    rintro ⟨d0, hd0, hmiss⟩
    have hkb : (k != "") = true := by simpa using hk
    cases hdk : d.lookup k with
    | none =>
      simp [buildBulkObjects, buildBulkObject, idKeyGiven, hkb, hdk,
        Bind.bind, Except.bind]
    | some v =>
      have hd0r : d0 ∈ rest := by
        rcases List.mem_cons.mp hd0 with h0 | h0
        · subst h0; rw [hdk] at hmiss; cases hmiss
        · exact h0
      simp [buildBulkObjects, buildBulkObject, idKeyGiven, hkb, hdk,
        ih ⟨d0, hd0r, hmiss⟩, Bind.bind, Except.bind]

theorem buildBulkObjects_total (k : String) (hk : k ≠ "") (op_type : String)
    (upsert keep_id_key : Bool) :
    ∀ data : List Doc, (∀ d ∈ data, (d.lookup k).isSome = true) →
      ∃ objs data2,
        buildBulkObjects (some k) op_type upsert keep_id_key data = .ok (objs, data2) := by
  intro data
  induction data with
  | nil => intro _; exact ⟨[], [], rfl⟩
  | cons d rest ih =>
    intro hall
    obtain ⟨v, hv⟩ := Option.isSome_iff_exists.mp (hall d (by simp))
    obtain ⟨objs, data2, hbuild⟩ := ih (fun d2 hd2 => hall d2 (by simp [hd2]))
    have hkb : (k != "") = true := by simpa using hk
    refine ⟨attachPayload op_type upsert
        (if v = .str "" then { op_type := op_type }
         else { op_type := op_type, id := some v })
        (if keep_id_key then d else docPop k d) :: objs,
      (if keep_id_key then d else docPop k d) :: data2, ?_⟩
    simp [buildBulkObjects, buildBulkObject, idKeyGiven, hkb, hv, hbuild,
      Bind.bind, Except.bind]

/-- Claim C10: with a non-empty identifier field name, a document lacking
that field makes the bulk call raise KeyError during operation building,
before anything is submitted to the remote service; when every document
carries the field, that error branch is unreachable. -/
theorem bulk_missing_id_key_raises (ok : Nat → Bool) (k : String) (hk : k ≠ "")
    (op_type : String) (upsert keep_id_key : Bool) (data : List Doc) :
    ((∃ d ∈ data, d.lookup k = none) →
      buildBulkObjects (some k) op_type upsert keep_id_key data =
        .error (.keyError k) ∧
      bulk ok data (some k) op_type upsert keep_id_key = .error (.keyError k)) ∧
    ((∀ d ∈ data, (d.lookup k).isSome = true) →
      ∃ objs data2,
        buildBulkObjects (some k) op_type upsert keep_id_key data = .ok (objs, data2)) := by
  constructor
  · intro hmiss
    have herr := buildBulkObjects_keyError k hk op_type upsert keep_id_key data hmiss
    exact ⟨herr, by simp [bulk, herr, Bind.bind, Except.bind]⟩
  · exact buildBulkObjects_total k hk op_type upsert keep_id_key data

/-- Witness for C10: a singleton batch lacking the id field raises, and a
singleton batch carrying it builds successfully. -/
theorem bulk_missing_id_key_raises_witness :
    (buildBulkObjects (some "id") "index" false false [[("x", Val.num 1)]] =
        .error (.keyError "id") ∧
      bulk (fun _ => true) [[("x", Val.num 1)]] (some "id") "index" false false =
        .error (.keyError "id")) ∧
    (∃ objs data2,
      buildBulkObjects (some "id") "index" false false [[("id", Val.str "3")]] =
        .ok (objs, data2)) :=
  ⟨(bulk_missing_id_key_raises (fun _ => true) "id" (by decide) "index" false false
      [[("x", Val.num 1)]]).1 ⟨[("x", Val.num 1)], by simp, rfl⟩,
   (bulk_missing_id_key_raises (fun _ => true) "id" (by decide) "index" false false
      [[("id", Val.str "3")]]).2 (by decide)⟩

theorem scrollRaw_length_eq (size : Nat) (hs : 0 < size) (hits : List HitRepr) :
    (scrollRaw size hits).length = (hits.length + size - 1) / size := by
  induction hits using scrollRaw.induct size with
  | case1 hits hl =>
    rw [scrollRaw]
    simp only [hl, dif_pos, List.length_nil]
    rw [List.take_eq_nil_iff] at hl
    rcases hl with h | h
    · omega
    · subst h
      simp only [List.length_nil]
      rw [Nat.div_eq_of_lt (by omega : 0 + size - 1 < size)]
  | case2 hits hl ih =>
    rw [scrollRaw]
    rw [dif_neg hl]
    have hlen : hits ≠ [] := by
      rw [List.take_eq_nil_iff] at hl; push_neg at hl; exact hl.2
    have hN : 0 < hits.length := List.length_pos.mpr hlen
    simp only [List.length_cons]
    rw [ih]
    simp only [List.length_drop]
    have h1 : hits.length + size - 1 = (hits.length - 1) + size := by omega
    rw [h1, Nat.add_div_right _ hs]
    by_cases hcase : size ≤ hits.length
    · have h2 : hits.length - size + size - 1 = hits.length - 1 := by omega
      rw [h2]
    · have h2 : hits.length - size = 0 := by omega
      rw [h2]
      rw [Nat.div_eq_of_lt (by omega : 0 + size - 1 < size)]
      rw [Nat.div_eq_of_lt (by omega : hits.length - 1 < size)]

theorem scrollRaw_batches (size : Nat) (hits : List HitRepr) :
    ∀ b ∈ scrollRaw size hits, b ≠ [] ∧ b.length ≤ size := by
  induction hits using scrollRaw.induct size with
  | case1 hits hl => rw [scrollRaw]; simp [hl]
  | case2 hits hl ih =>
    rw [scrollRaw]
    rw [dif_neg hl]
    intro b hb
    rcases List.mem_cons.mp hb with h | h
    · subst h
      exact ⟨hl, by simp⟩
    · exact ih b h

theorem scrollRaw_flatten (size : Nat) (hs : 0 < size) (hits : List HitRepr) :
    (scrollRaw size hits).flatten = hits := by
  induction hits using scrollRaw.induct size with
  | case1 hits hl =>
    rw [scrollRaw]
    simp only [hl, dif_pos, List.flatten_nil]
    rw [List.take_eq_nil_iff] at hl
    rcases hl with h | h
    · omega
    · simp [h]
  | case2 hits hl ih =>
    rw [scrollRaw]
    rw [dif_neg hl]
    simp [ih, List.take_append_drop]

theorem scrollUnpacked_eq (size : Nat) (hits : List HitRepr) :
    scrollUnpacked size hits = (scrollRaw size hits).map (List.map unpackHit) := by
  induction hits using scrollUnpacked.induct size with
  | case1 hits hl => rw [scrollUnpacked, scrollRaw]; simp [hl]
  | case2 hits hl ih =>
    rw [scrollUnpacked, scrollRaw]
    rw [dif_neg hl, dif_neg hl]
    simp [ih]

/-- Claim C3: draining the scroll generator over N matching hits with
batch size S at least 1 yields exactly ceil(N/S) batches, all non-empty
and of at most S hits, whose concatenation is the whole hit list (so N
documents in total); the unpacked variant yields the same batches with
every hit unpacked; each step fetches the next chunk of the remaining
suffix, and the generator retires exactly when a fetch returns an empty
batch. -/
theorem scroll_drain_spec (size : Nat) (hs : 1 ≤ size) (hits : List HitRepr) :
    (scrollRaw size hits).length = (hits.length + size - 1) / size ∧
    (∀ b ∈ scrollRaw size hits, b ≠ [] ∧ b.length ≤ size) ∧
    (scrollRaw size hits).flatten = hits ∧
    ((scrollRaw size hits).map List.length).sum = hits.length ∧
    scrollUnpacked size hits = (scrollRaw size hits).map (List.map unpackHit) ∧
    scrollRaw size ([] : List HitRepr) = [] ∧
    (hits ≠ [] → scrollRaw size hits = hits.take size :: scrollRaw size (hits.drop size)) := by
  have hflat := scrollRaw_flatten size hs hits
  refine ⟨scrollRaw_length_eq size hs hits, scrollRaw_batches size hits, hflat, ?_, ?_, ?_, ?_⟩
  · have := congrArg List.length hflat
    simpa using this
  · exact scrollUnpacked_eq size hits
  · rw [scrollRaw]; simp
  · intro hne
    have htake : hits.take size ≠ [] := by
      intro hcon
      rw [List.take_eq_nil_iff] at hcon
      rcases hcon with h | h
      · omega
      · exact hne h
    rw [scrollRaw]
    rw [dif_neg htake]

/-- Concrete hit list used by the witness for C3. -/
def c3hits : List HitRepr :=
  [.plain [], .plain [("a", .num 1)], .withSource [] [("b", .num 2)]]

/-- Witness for C3: three hits scrolled with batch size two give two
batches (of sizes two and one). -/
theorem scroll_drain_spec_witness :
    (scrollRaw 2 c3hits).length = (c3hits.length + 2 - 1) / 2 ∧
    (∀ b ∈ scrollRaw 2 c3hits, b ≠ [] ∧ b.length ≤ 2) ∧
    (scrollRaw 2 c3hits).flatten = c3hits ∧
    ((scrollRaw 2 c3hits).map List.length).sum = c3hits.length ∧
    scrollUnpacked 2 c3hits = (scrollRaw 2 c3hits).map (List.map unpackHit) ∧
    scrollRaw 2 ([] : List HitRepr) = [] ∧
    (c3hits ≠ [] → scrollRaw 2 c3hits = c3hits.take 2 :: scrollRaw 2 (c3hits.drop 2)) :=
  scroll_drain_spec 2 (by decide) c3hits

theorem cluster_lookup_filter (c : Cluster) (name : String) :
    (c.filter (fun p => p.1 != name)).lookup name = none := by
  induction c with
  | nil => rfl
  | cons p c ih =>
    rcases p with ⟨k, m⟩
    by_cases h : k = name
    · simpa [List.filter_cons, h] using ih
    · have hb : (name == k) = false := by
        simp only [beq_eq_false_iff_ne, ne_eq]
        exact fun e => h e.symm
      simp [List.filter_cons, h, List.lookup, hb, ih]

theorem exists_createIndexOp (c : Cluster) (index : String) (m s : Option Doc) :
    indicesExists (createIndexOp c index m s) index = true := by
  simp [indicesExists, createIndexOp, indicesCreate, List.lookup]

theorem elasticIndexInit_ok_cases (c : Cluster) (index doc_type url : String)
    (mapping settings : Option Doc) (timeout : Nat) (replace : Bool)
    (h : ElasticIndex) (c2 : Cluster) (created : Bool)
    (hok : elasticIndexInit c index doc_type url mapping settings timeout replace =
      .ok (h, c2, created)) :
    h = { index := index, doc_type := doc_type, url := url, mapping := mapping,
          settings := settings, timeout := timeout } ∧
    ∃ c1, ((replace = true ∧ indicesDelete c index = .ok c1) ∨
           (replace = false ∧ c1 = c)) ∧
      ((indicesExists c1 index = true ∧ c2 = c1 ∧ created = false) ∨
       (indicesExists c1 index = false ∧
         c2 = createIndexOp c1 index mapping settings ∧ created = true)) := by
  cases replace
  case false =>
    simp only [elasticIndexInit, Bind.bind, Except.bind, Bool.false_eq_true,
      if_false] at hok
    by_cases hex : indicesExists c index = true
    · simp only [hex, if_true, Except.ok.injEq, Prod.mk.injEq] at hok
      obtain ⟨h1, h2, h3⟩ := hok
      exact ⟨h1.symm, c, .inr ⟨rfl, rfl⟩, .inl ⟨hex, h2.symm, h3.symm⟩⟩
    · have hex2 : indicesExists c index = false := by
        exact Bool.not_eq_true _ ▸ (by simpa using hex)
      simp only [hex2, Bool.false_eq_true, if_false, Except.ok.injEq,
        Prod.mk.injEq] at hok
      obtain ⟨h1, h2, h3⟩ := hok
      exact ⟨h1.symm, c, .inr ⟨rfl, rfl⟩, .inr ⟨hex2, h2.symm, h3.symm⟩⟩
  case true =>
    cases hdel : indicesDelete c index with
    | error e =>
      simp only [elasticIndexInit, Bind.bind, Except.bind, if_true, hdel] at hok
      exact absurd hok (by simp)
    | ok c1 =>
      simp only [elasticIndexInit, Bind.bind, Except.bind, if_true, hdel] at hok
      by_cases hex : indicesExists c1 index = true
      · simp only [hex, if_true, Except.ok.injEq, Prod.mk.injEq] at hok
        obtain ⟨h1, h2, h3⟩ := hok
        exact ⟨h1.symm, c1, .inl ⟨rfl, rfl⟩, .inl ⟨hex, h2.symm, h3.symm⟩⟩
      · have hex2 : indicesExists c1 index = false := by
          exact Bool.not_eq_true _ ▸ (by simpa using hex)
        simp only [hex2, Bool.false_eq_true, if_false, Except.ok.injEq,
          Prod.mk.injEq] at hok
        obtain ⟨h1, h2, h3⟩ := hok
        exact ⟨h1.symm, c1, .inl ⟨rfl, rfl⟩, .inr ⟨hex2, h2.symm, h3.symm⟩⟩

/-- Counterexample to C4 as stated: constructing with replaceExisting true
when no index of that name exists raises NotFoundError to the caller; the
not-found outcome of the deletion is not ignored. -/
theorem init_replace_notfound_counterexample :
    elasticIndexInit [] "test" "document" "http://localhost:9200" none none 300 true =
      .error .notFoundError := rfl

/-- Claim C4 (amended): with replaceExisting true the deletion is
requested unconditionally, but a not-found outcome propagates to the
caller as NotFoundError (construction fails) instead of being ignored;
when the named index exists, the deletion succeeds, removes it, and
construction proceeds to the existence check and creation. -/
theorem init_replace_behavior (c : Cluster) (index doc_type url : String)
    (mapping settings : Option Doc) (timeout : Nat) :
    (indicesExists c index = false →
      elasticIndexInit c index doc_type url mapping settings timeout true =
        .error .notFoundError) ∧
    (indicesExists c index = true →
      ∃ c2, indicesDelete c index = .ok c2 ∧ indicesExists c2 index = false ∧
        elasticIndexInit c index doc_type url mapping settings timeout true =
          .ok ({ index := index, doc_type := doc_type, url := url,
                 mapping := mapping, settings := settings, timeout := timeout },
               createIndexOp c2 index mapping settings, true)) := by
  constructor
  · intro hno
    simp [elasticIndexInit, indicesDelete, hno, Bind.bind, Except.bind]
  · intro hyes
    have hfilter : indicesExists (c.filter (fun p => p.1 != index)) index = false := by
      simp [indicesExists, cluster_lookup_filter]
    refine ⟨c.filter (fun p => p.1 != index), by simp [indicesDelete, hyes], hfilter, ?_⟩
    simp [elasticIndexInit, indicesDelete, hyes, hfilter, Bind.bind, Except.bind]

/-- Witness for C4 (amended) at a one-index cluster and at the empty
cluster. -/
theorem init_replace_behavior_witness :
    (elasticIndexInit [] "idx" "doc" "u" none none 300 true =
      .error .notFoundError) ∧
    (∃ c2, indicesDelete [("idx", ({ mappings := none, settings := [] } : IndexMeta))]
          "idx" = .ok c2 ∧
      indicesExists c2 "idx" = false ∧
      elasticIndexInit [("idx", ({ mappings := none, settings := [] } : IndexMeta))]
          "idx" "doc" "u" none none 300 true =
        .ok ({ index := "idx", doc_type := "doc", url := "u", mapping := none,
               settings := none, timeout := 300 },
             createIndexOp c2 "idx" none none, true)) :=
  ⟨(init_replace_behavior [] "idx" "doc" "u" none none 300).1 rfl,
   (init_replace_behavior [("idx", ({ mappings := none, settings := [] } : IndexMeta))]
      "idx" "doc" "u" none none 300).2 rfl⟩

/-- Claim C5: every successful construction leaves the target index
existing remotely; when the index already existed and replaceExisting is
false, the cluster is reused untouched and no create call is issued. -/
theorem init_ensures_index_exists (c : Cluster) (index doc_type url : String)
    (mapping settings : Option Doc) (timeout : Nat) (replace : Bool)
    (h : ElasticIndex) (c2 : Cluster) (created : Bool)
    (hok : elasticIndexInit c index doc_type url mapping settings timeout replace =
      .ok (h, c2, created)) :
    indicesExists c2 index = true ∧
    (replace = false → indicesExists c index = true → c2 = c ∧ created = false) := by
  obtain ⟨-, c1, hstep, hcases⟩ :=
    elasticIndexInit_ok_cases c index doc_type url mapping settings timeout replace
      h c2 created hok
  constructor
  · rcases hcases with ⟨hex, rfl, -⟩ | ⟨-, rfl, -⟩
    · exact hex
    · exact exists_createIndexOp c1 index mapping settings
  · rintro rfl hex
    rcases hstep with ⟨hcon, -⟩ | ⟨-, rfl⟩
    · cases hcon
    · rcases hcases with ⟨-, rfl, rfl⟩ | ⟨hnone, -, -⟩
      · exact ⟨rfl, rfl⟩
      · rw [hex] at hnone; cases hnone

/-- Witness for C5: constructing over the empty cluster creates the index
and it exists afterwards. -/
theorem init_ensures_index_exists_witness :
    indicesExists (createIndexOp [] "idx" none none) "idx" = true ∧
    (false = false → indicesExists [] "idx" = true →
      createIndexOp [] "idx" none none = [] ∧ true = false) :=
  init_ensures_index_exists [] "idx" "doc" "u" none none 300 false
    { index := "idx", doc_type := "doc", url := "u", mapping := none,
      settings := none, timeout := 300 }
    (createIndexOp [] "idx" none none) true rfl

/-- Claim C6: get converts the remote not-found outcome to None without
raising, returns the bare source content of a found record, and lets any
other failure propagate. -/
theorem get_absent_spec :
    get .notFound = .ok none ∧
    (∀ r, get (.found r) = .ok (some (unpackHit r))) ∧
    (∀ e, get (.failure e) = .error e) :=
  ⟨rfl, fun _ => rfl, fun _ => rfl⟩

/-- Claim C7: index_into returns False, without raising, exactly on the
RequestError rejection; True when the write is accepted; any transport
failure propagates as the raised exception. -/
theorem index_into_soft_failure_spec :
    index_into .ack = .ok true ∧
    (∀ m, index_into (.requestError m) = .ok false) ∧
    (∀ e, index_into (.transportFailure e) = .error e) :=
  ⟨rfl, fun _ => rfl, fun _ => rfl⟩

/-- Claim C8: reindex constructs the new handle reusing the source url,
doc_type and mapping for every parameter not overridden, feeds every
batch scrolled from the source with batch size 500 into the target bulk
call with the same identifier key, and returns the new handle. -/
theorem reindex_spec (c : Cluster) (ok : Nat → Bool) (self : ElasticIndex)
    (sourceHits : List HitRepr) (new_index_name : String)
    (identifier_key : Option String) (kw : InitKwargs)
    (newIdx : ElasticIndex) (c2 : Cluster) (created : Bool)
    (batches : List (List Doc))
    (hscroll : scrollUnpacked 500 sourceHits = batches)
    (hinit : elasticIndexInit c new_index_name (kw.doc_type.getD self.doc_type)
        (kw.url.getD self.url) (kw.mapping.getD self.mapping) (kw.settings.getD none)
        (kw.timeout.getD 300) (kw.replace.getD false) = .ok (newIdx, c2, created))
    (hbulks : bulkBatches ok identifier_key batches = .ok ()) :
    reindex c ok self sourceHits new_index_name identifier_key kw =
      .ok (newIdx, c2) ∧
    newIdx.url = kw.url.getD self.url ∧
    newIdx.doc_type = kw.doc_type.getD self.doc_type ∧
    newIdx.mapping = kw.mapping.getD self.mapping := by
  obtain ⟨hfields, -⟩ :=
    elasticIndexInit_ok_cases c new_index_name (kw.doc_type.getD self.doc_type)
      (kw.url.getD self.url) (kw.mapping.getD self.mapping) (kw.settings.getD none)
      (kw.timeout.getD 300) (kw.replace.getD false) newIdx c2 created hinit
  refine ⟨?_, by simp [hfields], by simp [hfields], by simp [hfields]⟩
  simp only [reindex, Option.getD_some, Bind.bind, Except.bind]
  rw [hinit, hscroll, hbulks]

/-- Concrete source hit used by the witness for C8. -/
def c8hits : List HitRepr := [.withSource [] [("id", Val.str "1")]]

/-- Concrete source handle used by the witness for C8. -/
def c8src : ElasticIndex :=
  { index := "src", doc_type := "doc", url := "u", mapping := none,
    settings := none, timeout := 300 }

/-- Concrete target handle produced by the witness for C8. -/
def c8dst : ElasticIndex :=
  { index := "dst", doc_type := "doc", url := "u", mapping := none,
    settings := none, timeout := 300 }

/-- Empty keyword-argument overrides used by the witness for C8. -/
def c8kw : InitKwargs := {}

/-- Witness for C8 at a one-document source index copied with no
overrides. -/
theorem reindex_spec_witness :
    reindex [] (fun _ => true) c8src c8hits "dst" (some "id") c8kw =
      .ok (c8dst, createIndexOp [] "dst" none none) ∧
    c8dst.url = c8kw.url.getD c8src.url ∧
    c8dst.doc_type = c8kw.doc_type.getD c8src.doc_type ∧
    c8dst.mapping = c8kw.mapping.getD c8src.mapping :=
  reindex_spec [] (fun _ => true) c8src c8hits "dst" (some "id") c8kw c8dst
    (createIndexOp [] "dst" none none) true [[[("id", Val.str "1")]]]
    (by
      rw [scrollUnpacked]
      rw [dif_neg (by decide : ¬(List.take 500 c8hits = []))]
      rw [scrollUnpacked]
      rw [dif_pos (by decide : List.take 500 (List.drop 500 c8hits) = [])]
      decide)
    rfl rfl

end SimpleElastic
